import Mathlib

/-!
Shallow embedding of src/src/linux_joystick.c (GLFW 3.3 Linux joystick
backend).  The global state `_glfw.linux_js.js[GLFW_JOYSTICK_1 ..
GLFW_JOYSTICK_LAST]` is modelled as a `List Joystick` (length 16 in the
real program), threaded explicitly through each operation.  OS calls
(`open`, `ioctl`, `read`, `inotify`, `opendir`/`readdir`, `regcomp`) are
modelled as environment records supplying their results.  C `float` axis
values are modelled as exact rationals; the char buffers `name`/`path`
are modelled as `String` (`NULL` after `memset` becomes `""`).
-/

/-- GLFW_JOYSTICK_LAST from the GLFW public header: joystick ids run from
GLFW_JOYSTICK_1 = 0 to GLFW_JOYSTICK_LAST = 15. -/
def GLFW_JOYSTICK_LAST : Nat := 15

/-- GLFW_PRESS button state (value 1 in the GLFW public header). -/
def GLFW_PRESS : Nat := 1

/-- GLFW_RELEASE button state (value 0 in the GLFW public header). -/
def GLFW_RELEASE : Nat := 0

/-- Linux errno ENODEV (19), reported by a joystick read after the device
node is gone. -/
def ENODEV : Nat := 19

/-- JS_EVENT_BUTTON from linux/joystick.h (0x01). -/
def JS_EVENT_BUTTON : Nat := 1

/-- JS_EVENT_AXIS from linux/joystick.h (0x02). -/
def JS_EVENT_AXIS : Nat := 2

/-- JS_EVENT_INIT from linux/joystick.h (0x80); bit 7 of the event type. -/
def JS_EVENT_INIT : Nat := 128

/-- Connection-change kind passed to the host callback
`_glfwInputJoystickChange` (GLFW_CONNECTED / GLFW_DISCONNECTED). -/
inductive ConnChange where
  | connected
  | disconnected
  deriving Repr, DecidableEq

/-- One slot of the device table `_GLFWjoystickLinux`: presence flag, file
descriptor, device path, display name, the driver-reported counts, and the
current axis/button state.  Axes are C floats, modelled as rationals;
buttons are C unsigned chars holding GLFW_PRESS/GLFW_RELEASE. -/
structure Joystick where
  present : Bool
  fd : Int
  path : String
  name : String
  axisCount : Nat
  buttonCount : Nat
  axes : List Rat
  buttons : List Nat
  deriving Repr, DecidableEq

/-- The all-zero slot: the state of a slot after
`memset(js, 0, sizeof(_GLFWjoystickLinux))`, and the initial state of every
slot of the zero-initialised global table. -/
def emptyJoystick : Joystick where
  present := false
  fd := 0
  path := ""
  name := ""
  axisCount := 0
  buttonCount := 0
  axes := []
  buttons := []

/-- The device table at program start: 16 zeroed slots
(GLFW_JOYSTICK_1 .. GLFW_JOYSTICK_LAST). -/
def emptyTable : List Joystick := List.replicate (GLFW_JOYSTICK_LAST + 1) emptyJoystick

/-- Byte-wise C strcmp on the character lists of two strings: negative,
zero or positive according to the first differing character. -/
def strcmp : List Char → List Char → Int
  | [], [] => 0
  | [], _ :: _ => -1
  | _ :: _, [] => 1
  | a :: as, b :: bs => if a < b then -1 else if b < a then 1 else strcmp as bs

/-- Results of the OS calls made by `openJoystickDevice` for one device
path: the `open(path, O_RDONLY | O_NONBLOCK)` result (`none` models -1),
the JSIOCGVERSION value, the JSIOCGNAME result (`none` models a failed
ioctl, in which case the code uses "Unknown"), and the JSIOCGAXES /
JSIOCGBUTTONS counts (C chars). -/
structure OpenEnv where
  openResult : Option Int
  version : Int
  nameResult : Option String
  axisCount : Nat
  buttonCount : Nat

/-- Result of `openJoystickDevice`: the returned GLFWbool, the updated
device table, the `_glfwInputJoystickChange` notifications fired, and the
descriptors passed to `open`/`close` (for tracking that a rejected
descriptor is closed). -/
structure OpenResult where
  ok : Bool
  table : List Joystick
  notifs : List (Nat × ConnChange)
  openedFd : Option Int
  closedFd : Option Int
  deriving Repr, DecidableEq

/-- The first loop of `openJoystickDevice` (lines 56-69 of the C source):
index of the first slot whose `present` flag is clear, `none` when every
slot is taken (the C loop then leaves jid > GLFW_JOYSTICK_LAST). -/
def firstFreeSlot : List Joystick → Option Nat
  | [] => none
  | j :: rest => if j.present then (firstFreeSlot rest).map (· + 1) else some 0

/-- The slot record built by `openJoystickDevice` on success (lines 90-102):
present set, name from JSIOCGNAME (or "Unknown"), the path and descriptor,
and calloc-zeroed axis/button arrays sized from the driver counts. -/
def newSlot (env : OpenEnv) (path : String) (fd : Int) : Joystick where
  present := true
  fd := fd
  path := path
  name := env.nameResult.getD "Unknown"
  axisCount := env.axisCount
  buttonCount := env.buttonCount
  axes := List.replicate env.axisCount 0
  buttons := List.replicate env.buttonCount 0

/-- `openJoystickDevice` (lines 49-106): reject a path already held by a
present slot, find the first free slot (reject when full), open the
device (reject on failure), reject driver versions below 0x010000 after
closing the descriptor, otherwise populate the slot and fire exactly one
GLFW_CONNECTED notification. -/
def openJoystickDevice (env : OpenEnv) (path : String) (tbl : List Joystick) : OpenResult :=
  if tbl.any (fun j => j.present && strcmp j.path.data path.data == 0) then
    { ok := false, table := tbl, notifs := [], openedFd := none, closedFd := none }
  else
    match firstFreeSlot tbl with
    | none => { ok := false, table := tbl, notifs := [], openedFd := none, closedFd := none }
    | some jid =>
      match env.openResult with
      | none => { ok := false, table := tbl, notifs := [], openedFd := none, closedFd := none }
      | some fd =>
        if env.version < 65536 then
          { ok := false, table := tbl, notifs := [], openedFd := some fd, closedFd := some fd }
        else
          { ok := true, table := tbl.set jid (newSlot env path fd),
            notifs := [(jid, ConnChange.connected)], openedFd := some fd, closedFd := none }

/-- One `struct js_event` record read from the device: u32 time, s16 value,
u8 type, u8 number. -/
structure JsEvent where
  time : Nat
  value : Int
  type : Nat
  number : Nat
  deriving Repr, DecidableEq

/-- The body of the read loop of `pollJoystickEvents` for one successfully
read event (lines 144-150): clear the JS_EVENT_INIT bit (bit 7 of the u8
type), then store a normalised axis value or a boolean button state at the
event number. -/
def processEvent (js : Joystick) (e : JsEvent) : Joystick :=
  let t := e.type &&& 127
  if t = JS_EVENT_AXIS then
    { js with axes := js.axes.set e.number ((e.value : Rat) / 32767) }
  else if t = JS_EVENT_BUTTON then
    { js with buttons := js.buttons.set e.number (if e.value ≠ 0 then GLFW_PRESS else GLFW_RELEASE) }
  else
    js

/-- Joystick device-file name pattern.  Models the POSIX basic regular
expression compiled at line 205 of the C source from the literal
pattern string `js[0-9]` anchored at both ends with a backslash-plus
repetition (glibc semantics): the name is `js` followed by one or more
decimal digits and nothing else. -/
def matchesJoystickPattern (s : String) : Bool :=
  match s.data with
  | 'j' :: 's' :: rest => !rest.isEmpty && rest.all (fun c => decide ('0' ≤ c) && decide (c ≤ '9'))
  | _ => false

/-- Path built by `snprintf(path, sizeof(path), "/dev/input/%s", name)`
into a 20-byte buffer: the concatenation truncated to 19 characters. -/
def devPath (name : String) : String := ("/dev/input/" ++ name).take 19

/-- Result of the hot-plug handler `_glfwPollJoystickEvents`: updated
table, notifications fired, and the device paths for which
`openJoystickDevice` was invoked. -/
structure HotResult where
  table : List Joystick
  notifs : List (Nat × ConnChange)
  attempted : List String
  deriving Repr, DecidableEq

/-- `_glfwPollJoystickEvents` (lines 279-302): walk the inotify event
records (given here by their `name` fields), and for every name matching
the joystick pattern build the device path and call
`openJoystickDevice`. -/
def glfwPollJoystickEvents (devices : String → OpenEnv) (names : List String)
    (tbl : List Joystick) : HotResult :=
  match names with
  | [] => { table := tbl, notifs := [], attempted := [] }
  | n :: rest =>
    if matchesJoystickPattern n then
      let path := devPath n
      let r := openJoystickDevice (devices path) path tbl
      let h := glfwPollJoystickEvents devices rest r.table
      { table := h.table, notifs := r.notifs ++ h.notifs, attempted := path :: h.attempted }
    else
      glfwPollJoystickEvents devices rest tbl

/-- Environment of `pollJoystickEvents`: the pending inotify event names
consumed by the initial `_glfwPollJoystickEvents()` call, and the per-path
OS behaviour used when that call opens new devices. -/
structure PollEnv where
  inotifyNames : List String
  devices : String → OpenEnv

/-- Result of `pollJoystickEvents`: the returned GLFWbool, the updated
device table and the notifications fired. -/
structure PollResult where
  ret : Bool
  table : List Joystick
  notifs : List (Nat × ConnChange)
  deriving Repr, DecidableEq

/-- `pollJoystickEvents` (lines 111-154) for the slot at index `jid`:
first run the hot-plug handler, return false if the slot is not present,
otherwise drain the queued driver events (`events`) until the read that
fails with `failErrno`; on ENODEV the slot is zeroed and one
GLFW_DISCONNECTED notification fires, on any other errno the loop just
stops; the return value is the present flag of the slot after polling. -/
def pollJoystickEvents (penv : PollEnv) (jid : Nat) (tbl : List Joystick)
    (events : List JsEvent) (failErrno : Nat) : PollResult :=
  let h := glfwPollJoystickEvents penv.devices penv.inotifyNames tbl
  let js := h.table.getD jid emptyJoystick
  if js.present = false then
    { ret := false, table := h.table, notifs := h.notifs }
  else
    let js1 := events.foldl processEvent js
    if failErrno = ENODEV then
      { ret := false, table := h.table.set jid emptyJoystick,
        notifs := h.notifs ++ [(jid, ConnChange.disconnected)] }
    else
      { ret := js1.present, table := h.table.set jid js1, notifs := h.notifs }

/-- Lexical order on slots used to model the qsort at lines 240-242 with
comparator `compareJoysticks` (lines 159-164), which compares the `path`
fields with `_glfw_strcmp`. -/
def pathLE (a b : Joystick) : Prop := strcmp a.path.data b.path.data ≤ 0

instance : DecidableRel pathLE := fun a b =>
  inferInstanceAs (Decidable (strcmp a.path.data b.path.data ≤ 0))

/-- The qsort call of `_glfwInitJoysticksLinux` sorts only the first
`count` slots of the table by `compareJoysticks`; modelled by insertion
sort (a sorted permutation) of the prefix of length `count`. -/
def sortFirstN (count : Nat) (tbl : List Joystick) : List Joystick :=
  List.insertionSort pathLE (tbl.take count) ++ tbl.drop count

/-- Environment of `_glfwInitJoysticksLinux`: the `inotify_init1` result
(`none` models -1), the `inotify_add_watch` result, whether `regcomp`
succeeds, the directory listing of /dev/input (`none` models a failed
`opendir`), and the per-path OS behaviour of the devices. -/
structure InitEnv where
  inotifyFd : Option Int
  watchFd : Option Int
  regcompOk : Bool
  dirEntries : Option (List String)
  devices : String → OpenEnv

/-- Errors reported through `_glfwInputError` by `_glfwInitJoysticksLinux`. -/
inductive InitError where
  | inotifyFailed
  | watchFailed
  | regexFailed
  | dirFailed
  deriving Repr, DecidableEq

/-- Result of `_glfwInitJoysticksLinux`: the returned GLFWbool, the device
table, the notifications fired during the scan, the errors reported, and
the device paths passed to `openJoystickDevice`. -/
structure InitResult where
  ok : Bool
  table : List Joystick
  notifs : List (Nat × ConnChange)
  errors : List InitError
  attempted : List String

/-- The readdir loop of `_glfwInitJoysticksLinux` (lines 216-227): for each
directory entry whose name matches the pattern, build the path and attempt
to open it, counting the successful opens. -/
def scanJoysticks (devices : String → OpenEnv) (entries : List String)
    (tbl : List Joystick) : List Joystick × Nat × List (Nat × ConnChange) × List String :=
  match entries with
  | [] => (tbl, 0, [], [])
  | n :: rest =>
    if matchesJoystickPattern n then
      let path := devPath n
      let r := openJoystickDevice (devices path) path tbl
      let s := scanJoysticks devices rest r.table
      (s.1, (if r.ok then 1 else 0) + s.2.1, r.notifs ++ s.2.2.1, path :: s.2.2.2)
    else
      scanJoysticks devices rest tbl

/-- `_glfwInitJoysticksLinux` (lines 174-246): fail on a failed
`inotify_init1`; report and continue on a failed `inotify_add_watch`; fail
on a failed `regcomp`; scan the device directory when it opens (otherwise
report and continue with no joysticks); finally qsort the first `count`
slots by path and return GLFW_TRUE. -/
def glfwInitJoysticksLinux (env : InitEnv) (tbl : List Joystick) : InitResult :=
  match env.inotifyFd with
  | none =>
    { ok := false, table := tbl, notifs := [], errors := [InitError.inotifyFailed], attempted := [] }
  | some _ =>
    let werrs := if env.watchFd.isNone then [InitError.watchFailed] else []
    if env.regcompOk = false then
      { ok := false, table := tbl, notifs := [],
        errors := werrs ++ [InitError.regexFailed], attempted := [] }
    else
      match env.dirEntries with
      | some entries =>
        let s := scanJoysticks env.devices entries tbl
        { ok := true, table := sortFirstN s.2.1 s.1, notifs := s.2.2.1,
          errors := werrs, attempted := s.2.2.2 }
      | none =>
        { ok := true, table := sortFirstN 0 tbl, notifs := [],
          errors := werrs ++ [InitError.dirFailed], attempted := [] }

/-- Number of present slots in a table. -/
def presentCount (tbl : List Joystick) : Nat := (tbl.filter (fun j => j.present)).length

/-- Every entry of the button array of a slot is GLFW_RELEASE or
GLFW_PRESS. -/
def buttonsOK (j : Joystick) : Prop := ∀ b ∈ j.buttons, b = GLFW_RELEASE ∨ b = GLFW_PRESS

instance (j : Joystick) : Decidable (buttonsOK j) :=
  inferInstanceAs (Decidable (∀ b ∈ j.buttons, b = GLFW_RELEASE ∨ b = GLFW_PRESS))

/-- Every slot of a table satisfies `buttonsOK`. -/
def tableButtonsOK (tbl : List Joystick) : Prop := ∀ j ∈ tbl, buttonsOK j

instance (tbl : List Joystick) : Decidable (tableButtonsOK tbl) :=
  inferInstanceAs (Decidable (∀ j ∈ tbl, buttonsOK j))

/-- No two present slots of the table hold the same device path. -/
def distinctPaths (tbl : List Joystick) : Prop :=
  List.Pairwise (fun a b => a.present = true → b.present = true → a.path ≠ b.path) tbl

/-- The first `n` slots of a table are exactly its present slots. -/
def presentUpTo (n : Nat) (tbl : List Joystick) : Prop :=
  ∀ i, i < tbl.length → ((tbl.getD i emptyJoystick).present = true ↔ i < n)

/-! Concrete fixtures: sample OS environments and slots used to evaluate
the operations on closed inputs. -/

/-- A device whose open and ioctl calls all succeed. -/
def okEnv : OpenEnv where
  openResult := some 5
  version := 131072
  nameResult := some "Gamepad"
  axisCount := 2
  buttonCount := 3

/-- A device whose `open` call fails. -/
def failEnv : OpenEnv where
  openResult := none
  version := 0
  nameResult := none
  axisCount := 0
  buttonCount := 0

/-- A device reporting a 0.x joystick driver version. -/
def oldEnv : OpenEnv where
  openResult := some 7
  version := 100
  nameResult := some "Legacy"
  axisCount := 1
  buttonCount := 1

/-- A populated slot holding device js0. -/
def slotA : Joystick where
  present := true
  fd := 3
  path := "/dev/input/js0"
  name := "Pad A"
  axisCount := 1
  buttonCount := 1
  axes := [0]
  buttons := [0]

/-- Device behaviour where every open fails. -/
def noDevices : String → OpenEnv := fun _ => failEnv

/-- A poll environment with no pending inotify events. -/
def quietPoll : PollEnv where
  inotifyNames := []
  devices := noDevices

/-- A table with every slot taken. -/
def fullTable : List Joystick := List.replicate (GLFW_JOYSTICK_LAST + 1) slotA

/-- Initialisation environment with two joystick device files whose
display names are in the opposite lexical order of their paths. -/
def envNames : InitEnv where
  inotifyFd := some 3
  watchFd := some 4
  regcompOk := true
  dirEntries := some ["js0", "js1"]
  devices := fun p =>
    if p = "/dev/input/js1" then
      { openResult := some 6, version := 131072, nameResult := some "AA",
        axisCount := 1, buttonCount := 1 }
    else
      { openResult := some 5, version := 131072, nameResult := some "ZZ",
        axisCount := 1, buttonCount := 1 }

/-- Initialisation environment where the watch and the directory both fail. -/
def envNoDir : InitEnv where
  inotifyFd := some 3
  watchFd := none
  regcompOk := true
  dirEntries := none
  devices := noDevices

/-- A slot with one axis, and the driver events at the extremes of the s16
value range. -/
def axisSlot : Joystick where
  present := true
  fd := 3
  path := "/dev/input/js0"
  name := "Pad"
  axisCount := 1
  buttonCount := 0
  axes := [0]
  buttons := []

/-- Axis event carrying the minimum s16 value. -/
def minAxisEvent : JsEvent where
  time := 0
  value := -32768
  type := 2
  number := 0

/-- Axis event carrying the maximum s16 value. -/
def maxAxisEvent : JsEvent where
  time := 0
  value := 32767
  type := 2
  number := 0

/-! Helper lemmas about `strcmp`. -/

theorem strcmp_le_total : ∀ a b : List Char, strcmp a b ≤ 0 ∨ strcmp b a ≤ 0 := by
  intro a
  induction a with
  | nil => intro b; cases b <;> simp [strcmp]
  | cons x xs ih =>
    intro b
    cases b with
    | nil => simp [strcmp]
    | cons y ys =>
      by_cases hxy : x < y
      · left; simp [strcmp, hxy]
      · by_cases hyx : y < x
        · right; simp [strcmp, hyx, asymm hyx]
        · have hx : ¬ y < x := hyx
          rcases ih ys with h | h
          · left; simpa [strcmp, hxy, hyx] using h
          · right; simpa [strcmp, hxy, hyx] using h

theorem strcmp_le_trans :
    ∀ a b c : List Char, strcmp a b ≤ 0 → strcmp b c ≤ 0 → strcmp a c ≤ 0 := by
  intro a
  induction a with
  | nil => intro b c _ _; cases c <;> simp [strcmp]
  | cons x xs ih =>
    intro b c hab hbc
    cases b with
    | nil => simp [strcmp] at hab
    | cons y ys =>
      cases c with
      | nil => simp [strcmp] at hbc
      | cons z zs =>
        by_cases hxy : x < y
        · -- x < y, and y ≤ z in every surviving case of hbc
          by_cases hyz : y < z
          · simp [strcmp, lt_trans hxy hyz]
          · by_cases hzy : z < y
            · simp [strcmp, hyz, hzy] at hbc
            · have hyz' : y = z := le_antisymm (le_of_not_lt hzy) (le_of_not_lt hyz)
              simp [strcmp, hyz' ▸ hxy]
        · by_cases hyx : y < x
          · simp [strcmp, hxy, hyx] at hab
          · have hxy' : x = y := le_antisymm (le_of_not_lt hyx) (le_of_not_lt hxy)
            subst hxy'
            by_cases hyz : x < z
            · simp [strcmp, hyz]
            · by_cases hzy : z < x
              · simp [strcmp, hyz, hzy] at hbc
              · have hxz : x = z := le_antisymm (le_of_not_lt hzy) (le_of_not_lt hyz)
                subst hxz
                simp only [strcmp, if_neg (lt_irrefl x)] at hab hbc ⊢
                exact ih ys zs hab hbc

theorem strcmp_eq_zero_iff : ∀ a b : List Char, strcmp a b = 0 ↔ a = b := by
  intro a
  induction a with
  | nil => intro b; cases b <;> simp [strcmp]
  | cons x xs ih =>
    intro b
    cases b with
    | nil => simp [strcmp]
    | cons y ys =>
      by_cases hxy : x < y
      · simp [strcmp, hxy, ne_of_lt hxy]
      · by_cases hyx : y < x
        · simp [strcmp, hxy, hyx, (ne_of_lt hyx).symm]
        · have hxy' : x = y := le_antisymm (le_of_not_lt hyx) (le_of_not_lt hxy)
          subst hxy'
          simp [strcmp, ih ys]

/-! Small list helpers. -/

theorem getD_replicate_empty (n i : Nat) :
    (List.replicate n emptyJoystick).getD i emptyJoystick = emptyJoystick := by
  induction n generalizing i with
  | zero => simp [List.getD]
  | succ m ih =>
    cases i with
    | zero => simp [List.replicate]
    | succ k => simp only [List.replicate, List.getD_cons_succ]; exact ih k

theorem getD_set_self {α : Type} {l : List α} {n : Nat} {a d : α} (h : n < l.length) :
    (l.set n a).getD n d = a := by
  have hlen : n < (l.set n a).length := by simpa using h
  rw [List.getD_eq_getElem _ _ hlen, List.getElem_set]
  simp

theorem getD_mem {α : Type} {l : List α} {n : Nat} {d : α} (h : n < l.length) :
    l.getD n d ∈ l := by
  rw [List.getD_eq_getElem _ _ h]
  exact List.getElem_mem h

/-! Characterisation of the free-slot search loop. -/

theorem firstFreeSlot_spec :
    ∀ (tbl : List Joystick) (jid : Nat), firstFreeSlot tbl = some jid →
      jid < tbl.length ∧ (tbl.getD jid emptyJoystick).present = false ∧
        ∀ k, k < jid → (tbl.getD k emptyJoystick).present = true := by
  intro tbl
  induction tbl with
  | nil => intro jid h; simp [firstFreeSlot] at h
  | cons j t ih =>
    intro jid h
    cases hj : j.present with
    | true =>
      cases hft : firstFreeSlot t with
      | none => rw [firstFreeSlot, hj, hft] at h; simp at h
      | some m =>
        rw [firstFreeSlot, hj, hft] at h
        simp at h
        obtain ⟨h1, h2, h3⟩ := ih m hft
        subst h
        refine ⟨by simpa using Nat.succ_lt_succ h1, by simpa using h2, ?_⟩
        intro k hk
        cases k with
        | zero => simpa using hj
        | succ k2 => simpa using h3 k2 (Nat.lt_of_succ_lt_succ hk)
    | false =>
      rw [firstFreeSlot, hj] at h
      simp at h
      subst h
      exact ⟨by simp, by simpa using hj, by omega⟩

theorem firstFreeSlot_eq_none_iff (tbl : List Joystick) :
    firstFreeSlot tbl = none ↔ ∀ j ∈ tbl, j.present = true := by
  induction tbl with
  | nil => simp [firstFreeSlot]
  | cons j t ih =>
    cases hj : j.present with
    | true => simp [firstFreeSlot, hj, ih]
    | false => simp [firstFreeSlot, hj]

/-! Case analysis of `openJoystickDevice`: every run either fails leaving
the table untouched (without opening, or closing what it opened), or
populates the first free slot. -/

theorem openJoystickDevice_shape (env : OpenEnv) (path : String) (tbl : List Joystick) :
    openJoystickDevice env path tbl =
        { ok := false, table := tbl, notifs := [], openedFd := none, closedFd := none }
    ∨ (∃ jid fd, firstFreeSlot tbl = some jid
        ∧ tbl.any (fun j => j.present && strcmp j.path.data path.data == 0) = false
        ∧ env.openResult = some fd ∧ env.version < 65536
        ∧ openJoystickDevice env path tbl =
            { ok := false, table := tbl, notifs := [], openedFd := some fd, closedFd := some fd })
    ∨ (∃ jid fd, firstFreeSlot tbl = some jid
        ∧ tbl.any (fun j => j.present && strcmp j.path.data path.data == 0) = false
        ∧ env.openResult = some fd ∧ ¬ env.version < 65536
        ∧ openJoystickDevice env path tbl =
            { ok := true, table := tbl.set jid (newSlot env path fd),
              notifs := [(jid, ConnChange.connected)], openedFd := some fd,
              closedFd := none }) := by
  cases h1 : tbl.any (fun j => j.present && strcmp j.path.data path.data == 0) with
  | true => left; simp [openJoystickDevice, h1]
  | false =>
    cases h2 : firstFreeSlot tbl with
    | none => left; simp [openJoystickDevice, h1, h2]
    | some jid =>
      cases h3 : env.openResult with
      | none => left; simp [openJoystickDevice, h1, h2, h3]
      | some fd =>
        by_cases h4 : env.version < 65536
        · right; left
          exact ⟨jid, fd, rfl, rfl, rfl, h4, by simp [openJoystickDevice, h1, h2, h3, h4]⟩
        · right; right
          exact ⟨jid, fd, rfl, rfl, rfl, h4, by simp [openJoystickDevice, h1, h2, h3, h4]⟩

/-! Field preservation through event processing. -/

theorem processEvent_fields (js : Joystick) (e : JsEvent) :
    (processEvent js e).present = js.present ∧ (processEvent js e).path = js.path ∧
      (processEvent js e).name = js.name ∧ (processEvent js e).fd = js.fd ∧
      (processEvent js e).axisCount = js.axisCount ∧
      (processEvent js e).buttonCount = js.buttonCount := by
  unfold processEvent
  by_cases h1 : (e.type &&& 127) = JS_EVENT_AXIS
  · simp [h1, JS_EVENT_AXIS, JS_EVENT_BUTTON]
  · by_cases h2 : (e.type &&& 127) = JS_EVENT_BUTTON
    · simp [h1, h2, JS_EVENT_AXIS, JS_EVENT_BUTTON]
    · simp [h1, h2]

theorem foldl_processEvent_fields (events : List JsEvent) (js : Joystick) :
    (events.foldl processEvent js).present = js.present ∧
      (events.foldl processEvent js).path = js.path ∧
      (events.foldl processEvent js).name = js.name ∧
      (events.foldl processEvent js).fd = js.fd ∧
      (events.foldl processEvent js).axisCount = js.axisCount ∧
      (events.foldl processEvent js).buttonCount = js.buttonCount := by
  induction events generalizing js with
  | nil => exact ⟨rfl, rfl, rfl, rfl, rfl, rfl⟩
  | cons e rest ih =>
    obtain ⟨p1, p2, p3, p4, p5, p6⟩ := processEvent_fields js e
    obtain ⟨q1, q2, q3, q4, q5, q6⟩ := ih (processEvent js e)
    exact ⟨by simp [List.foldl, q1, p1], by simp [List.foldl, q2, p2],
      by simp [List.foldl, q3, p3], by simp [List.foldl, q4, p4],
      by simp [List.foldl, q5, p5], by simp [List.foldl, q6, p6]⟩

/-! Pairwise preservation under replacing one slot by a related slot. -/

theorem pairwise_set_congr {R : Joystick → Joystick → Prop} :
    ∀ (l : List Joystick) (n : Nat) (a : Joystick),
      List.Pairwise R l → n < l.length →
      (∀ x ∈ l, R x (l.getD n emptyJoystick) → R x a) →
      (∀ x ∈ l, R (l.getD n emptyJoystick) x → R a x) →
      List.Pairwise R (l.set n a) := by
  intro l
  induction l with
  | nil => intro n a _ hn; simp at hn
  | cons h t ih =>
    intro n a hp hn hxa hax
    rw [List.pairwise_cons] at hp
    cases n with
    | zero =>
      simp only [List.set]
      rw [List.pairwise_cons]
      refine ⟨fun x hx => ?_, hp.2⟩
      exact hax x (List.mem_cons_of_mem h hx) (by simpa using hp.1 x hx)
    | succ m =>
      have hm : m < t.length := by simpa using Nat.lt_of_succ_lt_succ hn
      simp only [List.set]
      rw [List.pairwise_cons]
      constructor
      · intro x hx
        rcases List.mem_or_eq_of_mem_set hx with hx' | hx'
        · exact hp.1 x hx'
        · subst hx'
          exact hxa h (List.mem_cons_self h t)
            (by simpa using hp.1 (t.getD m emptyJoystick) (getD_mem hm))
      · refine ih m a hp.2 hm ?_ ?_
        · intro x hx hr
          exact hxa x (List.mem_cons_of_mem h hx) (by simpa using hr)
        · intro x hx hr
          exact hax x (List.mem_cons_of_mem h hx) (by simpa using hr)

/-! The present slots form a prefix: invariant of the discovery scan. -/

theorem presentUpTo_firstFree :
    ∀ (tbl : List Joystick) (n : Nat), presentUpTo n tbl → n ≤ tbl.length →
      firstFreeSlot tbl = if n < tbl.length then some n else none := by
  intro tbl
  induction tbl with
  | nil =>
    intro n h hn
    simp [firstFreeSlot]
  | cons j t ih =>
    intro n h hn
    have h0 := h 0 (by simp)
    cases n with
    | zero =>
      have hj : j.present = false := by
        rcases Bool.eq_false_or_eq_true j.present with hb | hb
        · exact absurd (h0.mp (by simpa using hb)) (by omega)
        · exact hb
      rw [firstFreeSlot, hj]
      simp
    | succ m =>
      have hj : j.present = true := by simpa using h0.mpr (Nat.succ_pos m)
      have ht : presentUpTo m t := by
        intro i hi
        have := h (i + 1) (by simpa using Nat.succ_lt_succ hi)
        simpa [Nat.succ_lt_succ_iff] using this
      have hm : m ≤ t.length := by simpa using Nat.le_of_succ_le_succ hn
      rw [firstFreeSlot, hj, ih m ht hm]
      by_cases hlt : m < t.length
      · simp [hlt]
      · simp [hlt]

theorem presentUpTo_set (tbl : List Joystick) (n : Nat) (a : Joystick)
    (h : presentUpTo n tbl) (hn : n < tbl.length) (ha : a.present = true) :
    presentUpTo (n + 1) (tbl.set n a) := by
  intro i hi
  have hi' : i < tbl.length := by simpa using hi
  rw [List.getD_eq_getElem _ _ hi, List.getElem_set]
  by_cases hin : n = i
  · subst hin
    simp [ha]
  · rw [if_neg hin, ← List.getD_eq_getElem _ _ hi']
    rw [h i hi']
    omega

theorem openJoystickDevice_presentUpTo (env : OpenEnv) (path : String)
    (tbl : List Joystick) (n : Nat) (h : presentUpTo n tbl) (hn : n ≤ tbl.length) :
    ((openJoystickDevice env path tbl).ok = false ∧
        (openJoystickDevice env path tbl).table = tbl)
    ∨ ((openJoystickDevice env path tbl).ok = true ∧ n < tbl.length ∧
        presentUpTo (n + 1) (openJoystickDevice env path tbl).table ∧
        (openJoystickDevice env path tbl).table.length = tbl.length) := by
  rcases openJoystickDevice_shape env path tbl with heq | ⟨jid, fd, _, _, _, _, heq⟩ |
      ⟨jid, fd, hfree, _, _, _, heq⟩
  · left; rw [heq]; exact ⟨rfl, rfl⟩
  · left; rw [heq]; exact ⟨rfl, rfl⟩
  · right
    rw [presentUpTo_firstFree tbl n h hn] at hfree
    by_cases hlt : n < tbl.length
    · rw [if_pos hlt] at hfree
      have hjid : jid = n := by simpa using hfree.symm
      subst hjid
      rw [heq]
      exact ⟨rfl, hlt, presentUpTo_set tbl jid (newSlot env path fd) h hlt rfl, by simp⟩
    · rw [if_neg hlt] at hfree
      exact absurd hfree (by simp)

theorem scanJoysticks_presentUpTo (devices : String → OpenEnv) :
    ∀ (entries : List String) (tbl : List Joystick) (n : Nat),
      presentUpTo n tbl → n ≤ tbl.length →
      presentUpTo (n + (scanJoysticks devices entries tbl).2.1)
          (scanJoysticks devices entries tbl).1
      ∧ n + (scanJoysticks devices entries tbl).2.1 ≤
          (scanJoysticks devices entries tbl).1.length
      ∧ (scanJoysticks devices entries tbl).1.length = tbl.length := by
  intro entries
  induction entries with
  | nil =>
    intro tbl n h hn
    exact ⟨by simpa [scanJoysticks] using h, by simpa [scanJoysticks] using hn,
      by simp [scanJoysticks]⟩
  | cons entry rest ih =>
    intro tbl n h hn
    by_cases hm : matchesJoystickPattern entry = true
    · rcases openJoystickDevice_presentUpTo (devices (devPath entry)) (devPath entry)
          tbl n h hn with ⟨hok, htb⟩ | ⟨hok, hlt, hup, hlen⟩
      · have hih := ih ((openJoystickDevice (devices (devPath entry)) (devPath entry) tbl).table)
          n (by rw [htb]; exact h) (by rw [htb]; exact hn)
        simp only [scanJoysticks, hm, if_true, hok, Bool.false_eq_true, if_false,
          Nat.zero_add]
        exact ⟨hih.1, hih.2.1, by rw [hih.2.2, htb]⟩
      · have hih := ih ((openJoystickDevice (devices (devPath entry)) (devPath entry) tbl).table)
          (n + 1) hup (by omega)
        simp only [scanJoysticks, hm, if_true, hok]
        refine ⟨?_, by omega, by omega⟩
        have harith : n + (1 + (scanJoysticks devices rest
            (openJoystickDevice (devices (devPath entry)) (devPath entry) tbl).table).2.1) =
            n + 1 + (scanJoysticks devices rest
            (openJoystickDevice (devices (devPath entry)) (devPath entry) tbl).table).2.1 := by
          omega
        rw [harith]
        exact hih.1
    · have hm' : matchesJoystickPattern entry = false := Bool.eq_false_iff.mpr hm
      simp only [scanJoysticks, hm', Bool.false_eq_true, if_false]
      exact ih tbl n h hn

/-! Button-state invariant helpers. -/

theorem buttonsOK_emptyJoystick : buttonsOK emptyJoystick := by
  intro b hb
  simp [emptyJoystick] at hb

theorem buttonsOK_newSlot (env : OpenEnv) (path : String) (fd : Int) :
    buttonsOK (newSlot env path fd) := by
  intro b hb
  left
  have : b = 0 := List.eq_of_mem_replicate (by simpa [newSlot] using hb)
  simpa [GLFW_RELEASE] using this

theorem processEvent_eq_axis (js : Joystick) (e : JsEvent)
    (h : e.type &&& 127 = JS_EVENT_AXIS) :
    processEvent js e = { js with axes := js.axes.set e.number ((e.value : Rat) / 32767) } := by
  unfold processEvent
  simp [h]

theorem processEvent_eq_button (js : Joystick) (e : JsEvent)
    (h1 : ¬ e.type &&& 127 = JS_EVENT_AXIS) (h2 : e.type &&& 127 = JS_EVENT_BUTTON) :
    processEvent js e = { js with buttons := js.buttons.set e.number (if e.value ≠ 0 then GLFW_PRESS else GLFW_RELEASE) } := by
  unfold processEvent
  simp [h1, h2, JS_EVENT_AXIS, JS_EVENT_BUTTON]

theorem processEvent_eq_other (js : Joystick) (e : JsEvent)
    (h1 : ¬ e.type &&& 127 = JS_EVENT_AXIS) (h2 : ¬ e.type &&& 127 = JS_EVENT_BUTTON) :
    processEvent js e = js := by
  unfold processEvent
  simp [h1, h2]

theorem buttonsOK_processEvent (js : Joystick) (e : JsEvent) (h : buttonsOK js) :
    buttonsOK (processEvent js e) := by
  by_cases h1 : (e.type &&& 127) = JS_EVENT_AXIS
  · rw [processEvent_eq_axis js e h1]
    exact h
  · by_cases h2 : (e.type &&& 127) = JS_EVENT_BUTTON
    · rw [processEvent_eq_button js e h1 h2]
      intro b hb
      rcases List.mem_or_eq_of_mem_set hb with hb' | hb'
      · exact h b hb'
      · by_cases hv : e.value ≠ 0
        · right; simpa [hv] using hb'
        · left; simpa [hv] using hb'
    · rw [processEvent_eq_other js e h1 h2]
      exact h

theorem buttonsOK_foldl (events : List JsEvent) (js : Joystick) (h : buttonsOK js) :
    buttonsOK (events.foldl processEvent js) := by
  induction events generalizing js with
  | nil => exact h
  | cons e rest ih => exact ih (processEvent js e) (buttonsOK_processEvent js e h)

theorem buttonsOK_getD (tbl : List Joystick) (n : Nat) (h : tableButtonsOK tbl) :
    buttonsOK (tbl.getD n emptyJoystick) := by
  by_cases hn : n < tbl.length
  · exact h _ (getD_mem hn)
  · rw [List.getD_eq_default _ _ (by omega)]
    exact buttonsOK_emptyJoystick

theorem tableButtonsOK_open (env : OpenEnv) (path : String) (tbl : List Joystick)
    (h : tableButtonsOK tbl) : tableButtonsOK (openJoystickDevice env path tbl).table := by
  rcases openJoystickDevice_shape env path tbl with heq | ⟨jid, fd, _, _, _, _, heq⟩ |
      ⟨jid, fd, _, _, _, _, heq⟩
  · rw [heq]; exact h
  · rw [heq]; exact h
  · rw [heq]
    intro j hj
    rcases List.mem_or_eq_of_mem_set hj with hj' | hj'
    · exact h j hj'
    · subst hj'
      exact buttonsOK_newSlot env path fd

theorem tableButtonsOK_hot (devices : String → OpenEnv) :
    ∀ (names : List String) (tbl : List Joystick), tableButtonsOK tbl →
      tableButtonsOK (glfwPollJoystickEvents devices names tbl).table := by
  intro names
  induction names with
  | nil => intro tbl h; exact h
  | cons n rest ih =>
    intro tbl h
    by_cases hm : matchesJoystickPattern n = true
    · simp only [glfwPollJoystickEvents, hm, if_true]
      exact ih _ (tableButtonsOK_open _ _ tbl h)
    · have hm' : matchesJoystickPattern n = false := Bool.eq_false_iff.mpr hm
      simp only [glfwPollJoystickEvents, hm', Bool.false_eq_true, if_false]
      exact ih tbl h

theorem pollJoystickEvents_eq_notPresent (penv : PollEnv) (jid : Nat)
    (tbl : List Joystick) (events : List JsEvent) (failErrno : Nat)
    (hp : ((glfwPollJoystickEvents penv.devices penv.inotifyNames tbl).table.getD
      jid emptyJoystick).present = false) :
    pollJoystickEvents penv jid tbl events failErrno =
      { ret := false,
        table := (glfwPollJoystickEvents penv.devices penv.inotifyNames tbl).table,
        notifs := (glfwPollJoystickEvents penv.devices penv.inotifyNames tbl).notifs } := by
  simp only [pollJoystickEvents, hp]
  simp

theorem pollJoystickEvents_eq_enodev (penv : PollEnv) (jid : Nat)
    (tbl : List Joystick) (events : List JsEvent) (failErrno : Nat)
    (hp : ((glfwPollJoystickEvents penv.devices penv.inotifyNames tbl).table.getD
      jid emptyJoystick).present = true)
    (he : failErrno = ENODEV) :
    pollJoystickEvents penv jid tbl events failErrno =
      { ret := false,
        table := (glfwPollJoystickEvents penv.devices
          penv.inotifyNames tbl).table.set jid emptyJoystick,
        notifs := (glfwPollJoystickEvents penv.devices penv.inotifyNames tbl).notifs ++
          [(jid, ConnChange.disconnected)] } := by
  simp only [pollJoystickEvents, hp, he]
  simp

theorem pollJoystickEvents_eq_events (penv : PollEnv) (jid : Nat)
    (tbl : List Joystick) (events : List JsEvent) (failErrno : Nat)
    (hp : ((glfwPollJoystickEvents penv.devices penv.inotifyNames tbl).table.getD
      jid emptyJoystick).present = true)
    (he : ¬ failErrno = ENODEV) :
    pollJoystickEvents penv jid tbl events failErrno =
      { ret := (events.foldl processEvent ((glfwPollJoystickEvents penv.devices
          penv.inotifyNames tbl).table.getD jid emptyJoystick)).present,
        table := (glfwPollJoystickEvents penv.devices penv.inotifyNames
          tbl).table.set jid (events.foldl processEvent ((glfwPollJoystickEvents
            penv.devices penv.inotifyNames tbl).table.getD jid emptyJoystick)),
        notifs := (glfwPollJoystickEvents penv.devices penv.inotifyNames tbl).notifs } := by
  simp only [pollJoystickEvents, hp, he]
  simp

theorem tableButtonsOK_poll (penv : PollEnv) (jid : Nat) (tbl : List Joystick)
    (events : List JsEvent) (failErrno : Nat) (h : tableButtonsOK tbl) :
    tableButtonsOK (pollJoystickEvents penv jid tbl events failErrno).table := by
  have hhot := tableButtonsOK_hot penv.devices penv.inotifyNames tbl h
  by_cases hp : ((glfwPollJoystickEvents penv.devices penv.inotifyNames
      tbl).table.getD jid emptyJoystick).present = false
  · rw [pollJoystickEvents_eq_notPresent penv jid tbl events failErrno hp]
    exact hhot
  · have hp' : ((glfwPollJoystickEvents penv.devices penv.inotifyNames
        tbl).table.getD jid emptyJoystick).present = true := by
      simpa using hp
    by_cases he : failErrno = ENODEV
    · rw [pollJoystickEvents_eq_enodev penv jid tbl events failErrno hp' he]
      intro j hj
      rcases List.mem_or_eq_of_mem_set hj with hj' | hj'
      · exact hhot j hj'
      · subst hj'; exact buttonsOK_emptyJoystick
    · rw [pollJoystickEvents_eq_events penv jid tbl events failErrno hp' he]
      intro j hj
      rcases List.mem_or_eq_of_mem_set hj with hj' | hj'
      · exact hhot j hj'
      · subst hj'
        exact buttonsOK_foldl events _ (buttonsOK_getD _ jid hhot)

/-! Distinct-path invariant helpers. -/

theorem distinctPaths_open (env : OpenEnv) (path : String) (tbl : List Joystick)
    (h : distinctPaths tbl) : distinctPaths (openJoystickDevice env path tbl).table := by
  rcases openJoystickDevice_shape env path tbl with heq | ⟨jid, fd, _, _, _, _, heq⟩ |
      ⟨jid, fd, hfree, hdup, _, _, heq⟩
  · rw [heq]; exact h
  · rw [heq]; exact h
  · rw [heq]
    obtain ⟨hlt, _, _⟩ := firstFreeSlot_spec tbl jid hfree
    have hnotdup : ∀ x ∈ tbl, x.present = true → x.path ≠ path := by
      intro x hx hpres heqp
      have hfalse := (List.any_eq_false.mp hdup) x hx
      apply hfalse
      have hzero : strcmp x.path.data path.data = 0 :=
        (strcmp_eq_zero_iff x.path.data path.data).mpr (by rw [heqp])
      simp [hpres, hzero]
    apply pairwise_set_congr tbl jid (newSlot env path fd) h hlt
    · intro x hx _ hxp _ heqp
      exact hnotdup x hx hxp (by simpa [newSlot] using heqp)
    · intro x hx _ _ hxp heqp
      exact hnotdup x hx hxp (by simpa [newSlot] using heqp.symm)

theorem distinctPaths_hot (devices : String → OpenEnv) :
    ∀ (names : List String) (tbl : List Joystick), distinctPaths tbl →
      distinctPaths (glfwPollJoystickEvents devices names tbl).table := by
  intro names
  induction names with
  | nil => intro tbl h; exact h
  | cons n rest ih =>
    intro tbl h
    by_cases hm : matchesJoystickPattern n = true
    · simp only [glfwPollJoystickEvents, hm, if_true]
      exact ih _ (distinctPaths_open _ _ tbl h)
    · have hm' : matchesJoystickPattern n = false := Bool.eq_false_iff.mpr hm
      simp only [glfwPollJoystickEvents, hm', Bool.false_eq_true, if_false]
      exact ih tbl h

theorem distinctPaths_poll (penv : PollEnv) (jid : Nat) (tbl : List Joystick)
    (events : List JsEvent) (failErrno : Nat) (h : distinctPaths tbl) :
    distinctPaths (pollJoystickEvents penv jid tbl events failErrno).table := by
  have hhot := distinctPaths_hot penv.devices penv.inotifyNames tbl h
  by_cases hp : ((glfwPollJoystickEvents penv.devices penv.inotifyNames
      tbl).table.getD jid emptyJoystick).present = false
  · rw [pollJoystickEvents_eq_notPresent penv jid tbl events failErrno hp]
    exact hhot
  · have hp' : ((glfwPollJoystickEvents penv.devices penv.inotifyNames
        tbl).table.getD jid emptyJoystick).present = true := by
      simpa using hp
    have hlt : jid < (glfwPollJoystickEvents penv.devices penv.inotifyNames
        tbl).table.length := by
      by_contra hge
      rw [List.getD_eq_default _ _ (by omega)] at hp'
      simp [emptyJoystick] at hp'
    by_cases he : failErrno = ENODEV
    · rw [pollJoystickEvents_eq_enodev penv jid tbl events failErrno hp' he]
      apply pairwise_set_congr _ jid emptyJoystick hhot hlt
      · intro x hx _ _ habs
        exact absurd habs (by simp [emptyJoystick])
      · intro x hx _ habs _
        exact absurd habs (by simp [emptyJoystick])
    · rw [pollJoystickEvents_eq_events penv jid tbl events failErrno hp' he]
      obtain ⟨f1, f2, _, _, _, _⟩ := foldl_processEvent_fields events
        ((glfwPollJoystickEvents penv.devices penv.inotifyNames tbl).table.getD
          jid emptyJoystick)
      apply pairwise_set_congr _ jid _ hhot hlt
      · intro x hx hr hxp hj1p heq2
        rw [f2] at heq2
        exact hr hxp (f1.symm.trans hj1p) heq2
      · intro x hx hr hj1p hxp heq2
        rw [f2] at heq2
        exact hr (f1.symm.trans hj1p) hxp heq2

/-! The device paths attempted by the directory scan and the hot-plug
handler are exactly those whose names match the pattern. -/

theorem scanJoysticks_attempted (devices : String → OpenEnv) :
    ∀ (entries : List String) (tbl : List Joystick),
      (scanJoysticks devices entries tbl).2.2.2 =
        (entries.filter matchesJoystickPattern).map devPath := by
  intro entries
  induction entries with
  | nil => intro tbl; simp [scanJoysticks]
  | cons n rest ih =>
    intro tbl
    by_cases hm : matchesJoystickPattern n = true
    · simp [scanJoysticks, hm, List.filter_cons_of_pos, ih]
    · have hm' : matchesJoystickPattern n = false := Bool.eq_false_iff.mpr hm
      simp [scanJoysticks, hm', ih]

theorem glfwPollJoystickEvents_attempted (devices : String → OpenEnv) :
    ∀ (names : List String) (tbl : List Joystick),
      (glfwPollJoystickEvents devices names tbl).attempted =
        (names.filter matchesJoystickPattern).map devPath := by
  intro names
  induction names with
  | nil => intro tbl; simp [glfwPollJoystickEvents]
  | cons n rest ih =>
    intro tbl
    by_cases hm : matchesJoystickPattern n = true
    · simp [glfwPollJoystickEvents, hm, ih]
    · have hm' : matchesJoystickPattern n = false := Bool.eq_false_iff.mpr hm
      simp [glfwPollJoystickEvents, hm', ih]

/-! Sorting the populated prefix of the table. -/

theorem sortFirstN_zero (tbl : List Joystick) : sortFirstN 0 tbl = tbl := by
  simp [sortFirstN, List.insertionSort]

theorem sortFirstN_sorted_present (tbl : List Joystick) (count : Nat)
    (hup : presentUpTo count tbl) (hc : count ≤ tbl.length) :
    ∀ i j : Nat, i < j → j < (sortFirstN count tbl).length →
      ((sortFirstN count tbl).getD i emptyJoystick).present = true →
      ((sortFirstN count tbl).getD j emptyJoystick).present = true →
      pathLE ((sortFirstN count tbl).getD i emptyJoystick)
        ((sortFirstN count tbl).getD j emptyJoystick) := by
  intro i j hij hj hpi hpj
  have hperm := List.perm_insertionSort pathLE (tbl.take count)
  have hSlen : (List.insertionSort pathLE (tbl.take count)).length = count := by
    rw [hperm.length_eq, List.length_take]
    omega
  have hdropLen : (tbl.drop count).length = tbl.length - count := List.length_drop count tbl
  have hdrop_not : ∀ k, k < (tbl.drop count).length →
      ((tbl.drop count).getD k emptyJoystick).present = false := by
    intro k hk
    have hck : count + k < tbl.length := by omega
    have : (tbl.drop count).getD k emptyJoystick = tbl.getD (count + k) emptyJoystick := by
      rw [List.getD_eq_getElem _ _ hk, List.getD_eq_getElem _ _ hck]
      exact List.getElem_drop tbl
    rw [this]
    have := hup (count + k) hck
    rcases Bool.eq_false_or_eq_true (tbl.getD (count + k) emptyJoystick).present with hb | hb
    · exact absurd (this.mp hb) (by omega)
    · exact hb
  have hjS : j < count := by
    by_contra hge
    have hj' : j - count < (tbl.drop count).length := by
      have : (sortFirstN count tbl).length =
          (List.insertionSort pathLE (tbl.take count)).length + (tbl.drop count).length := by
        simp [sortFirstN]
      omega
    have : (sortFirstN count tbl).getD j emptyJoystick =
        (tbl.drop count).getD (j - count) emptyJoystick := by
      unfold sortFirstN
      rw [List.getD_append_right _ _ _ _ (by omega)]
      rw [hSlen]
    rw [this] at hpj
    rw [hdrop_not (j - count) hj'] at hpj
    exact Bool.false_ne_true hpj
  have hiS : i < count := by omega
  have hgetI : (sortFirstN count tbl).getD i emptyJoystick =
      (List.insertionSort pathLE (tbl.take count)).getD i emptyJoystick := by
    unfold sortFirstN
    rw [List.getD_append _ _ _ _ (by omega)]
  have hgetJ : (sortFirstN count tbl).getD j emptyJoystick =
      (List.insertionSort pathLE (tbl.take count)).getD j emptyJoystick := by
    unfold sortFirstN
    rw [List.getD_append _ _ _ _ (by omega)]
  haveI : IsTotal Joystick pathLE := ⟨fun a b => strcmp_le_total a.path.data b.path.data⟩
  haveI : IsTrans Joystick pathLE :=
    ⟨fun a b c => strcmp_le_trans a.path.data b.path.data c.path.data⟩
  have hsorted : List.Pairwise pathLE (List.insertionSort pathLE (tbl.take count)) :=
    List.sorted_insertionSort pathLE (tbl.take count)
  have hiS' : i < (List.insertionSort pathLE (tbl.take count)).length := by omega
  have hjS' : j < (List.insertionSort pathLE (tbl.take count)).length := by omega
  have := List.pairwise_iff_get.mp hsorted ⟨i, hiS'⟩ ⟨j, hjS'⟩ (by simpa using hij)
  rw [hgetI, hgetJ, List.getD_eq_getElem _ _ hiS', List.getD_eq_getElem _ _ hjS']
  simpa [List.get_eq_getElem] using this

/-! Equation lemmas for `_glfwInitJoysticksLinux`. -/

theorem glfwInitJoysticksLinux_eq_noInotify (env : InitEnv) (tbl : List Joystick)
    (h : env.inotifyFd = none) :
    glfwInitJoysticksLinux env tbl =
      { ok := false, table := tbl, notifs := [], errors := [InitError.inotifyFailed],
        attempted := [] } := by
  simp only [glfwInitJoysticksLinux, h]

theorem glfwInitJoysticksLinux_eq_noRegex (env : InitEnv) (tbl : List Joystick) (k : Int)
    (h1 : env.inotifyFd = some k) (h2 : env.regcompOk = false) :
    glfwInitJoysticksLinux env tbl =
      { ok := false, table := tbl, notifs := [],
        errors := (if env.watchFd.isNone then [InitError.watchFailed] else []) ++
          [InitError.regexFailed],
        attempted := [] } := by
  simp only [glfwInitJoysticksLinux, h1, h2]
  simp

theorem glfwInitJoysticksLinux_eq_scan (env : InitEnv) (tbl : List Joystick) (k : Int)
    (entries : List String) (h1 : env.inotifyFd = some k) (h2 : env.regcompOk = true)
    (h3 : env.dirEntries = some entries) :
    glfwInitJoysticksLinux env tbl =
      { ok := true,
        table := sortFirstN (scanJoysticks env.devices entries tbl).2.1
          (scanJoysticks env.devices entries tbl).1,
        notifs := (scanJoysticks env.devices entries tbl).2.2.1,
        errors := if env.watchFd.isNone then [InitError.watchFailed] else [],
        attempted := (scanJoysticks env.devices entries tbl).2.2.2 } := by
  simp only [glfwInitJoysticksLinux, h1, h2, h3]
  simp

theorem glfwInitJoysticksLinux_eq_noDir (env : InitEnv) (tbl : List Joystick) (k : Int)
    (h1 : env.inotifyFd = some k) (h2 : env.regcompOk = true)
    (h3 : env.dirEntries = none) :
    glfwInitJoysticksLinux env tbl =
      { ok := true, table := sortFirstN 0 tbl, notifs := [],
        errors := (if env.watchFd.isNone then [InitError.watchFailed] else []) ++
          [InitError.dirFailed],
        attempted := [] } := by
  simp only [glfwInitJoysticksLinux, h1, h2, h3]
  simp

theorem presentUpTo_zero_emptyTable : presentUpTo 0 emptyTable := by
  intro i hi
  rw [emptyTable, getD_replicate_empty]
  simp [emptyJoystick]

/-! Range of normalised axis values. -/

theorem axisValue_bounds (v : Int) (hlo : -32768 ≤ v) (hhi : v ≤ 32767) :
    -(32768 / 32767 : Rat) ≤ (v : Rat) / 32767 ∧ (v : Rat) / 32767 ≤ 1 := by
  have h32 : (0 : Rat) < 32767 := by norm_num
  constructor
  · rw [show -(32768 / 32767 : Rat) = (-32768 : Rat) / 32767 by rw [neg_div]]
    exact (div_le_div_right h32).mpr (by exact_mod_cast hlo)
  · rw [div_le_one h32]
    exact_mod_cast hhi

theorem axes_bounds_processEvent (js : Joystick) (e : JsEvent)
    (hax : ∀ x ∈ js.axes, -(32768 / 32767 : Rat) ≤ x ∧ x ≤ 1)
    (hev : -32768 ≤ e.value ∧ e.value ≤ 32767) :
    ∀ x ∈ (processEvent js e).axes, -(32768 / 32767 : Rat) ≤ x ∧ x ≤ 1 := by
  by_cases h1 : (e.type &&& 127) = JS_EVENT_AXIS
  · rw [processEvent_eq_axis js e h1]
    intro x hx
    rcases List.mem_or_eq_of_mem_set hx with hx' | hx'
    · exact hax x hx'
    · subst hx'
      exact axisValue_bounds e.value hev.1 hev.2
  · by_cases h2 : (e.type &&& 127) = JS_EVENT_BUTTON
    · rw [processEvent_eq_button js e h1 h2]
      exact hax
    · rw [processEvent_eq_other js e h1 h2]
      exact hax

theorem axes_bounds_foldl (events : List JsEvent) (js : Joystick)
    (hax : ∀ x ∈ js.axes, -(32768 / 32767 : Rat) ≤ x ∧ x ≤ 1)
    (hev : ∀ ev ∈ events, -32768 ≤ ev.value ∧ ev.value ≤ 32767) :
    ∀ x ∈ (events.foldl processEvent js).axes, -(32768 / 32767 : Rat) ≤ x ∧ x ≤ 1 := by
  induction events generalizing js with
  | nil => exact hax
  | cons e rest ih =>
    exact ih (processEvent js e)
      (axes_bounds_processEvent js e hax (hev e (List.mem_cons_self e rest)))
      (fun ev hev' => hev ev (List.mem_cons_of_mem e hev'))

/-- Number of present slots is at most the table length. -/
theorem presentCount_le (l : List Joystick) : presentCount l ≤ l.length :=
  List.length_filter_le _ l

/-! Claim theorems. -/

/-- C2: `openJoystickDevice` fires exactly one GLFW_CONNECTED notification
if and only if it returns true; on success exactly one previously free
slot is populated with the name, path, descriptor and calloc-zeroed axis
and button arrays sized from the driver counts, and on failure no
notification is fired and no slot is modified. -/
theorem openJoystickDevice_connect_spec (env : OpenEnv) (path : String)
    (tbl : List Joystick) :
    ((openJoystickDevice env path tbl).ok = true →
      ∃ jid fd, jid < tbl.length ∧ (tbl.getD jid emptyJoystick).present = false
        ∧ env.openResult = some fd
        ∧ (openJoystickDevice env path tbl).table = tbl.set jid (newSlot env path fd)
        ∧ (newSlot env path fd).present = true
        ∧ (newSlot env path fd).name = env.nameResult.getD "Unknown"
        ∧ (newSlot env path fd).path = path
        ∧ (newSlot env path fd).fd = fd
        ∧ (newSlot env path fd).axes = List.replicate env.axisCount 0
        ∧ (newSlot env path fd).buttons = List.replicate env.buttonCount 0
        ∧ (openJoystickDevice env path tbl).notifs = [(jid, ConnChange.connected)])
  ∧ ((openJoystickDevice env path tbl).ok = false →
      (openJoystickDevice env path tbl).notifs = []
      ∧ (openJoystickDevice env path tbl).table = tbl) := by
  rcases openJoystickDevice_shape env path tbl with heq | ⟨jid, fd, _, _, _, _, heq⟩ |
      ⟨jid, fd, hfree, _, hopen, _, heq⟩
  · constructor
    · intro hok; rw [heq] at hok; cases hok
    · intro _; rw [heq]; exact ⟨rfl, rfl⟩
  · constructor
    · intro hok; rw [heq] at hok; cases hok
    · intro _; rw [heq]; exact ⟨rfl, rfl⟩
  · constructor
    · intro _
      obtain ⟨hlt, hfp, _⟩ := firstFreeSlot_spec tbl jid hfree
      exact ⟨jid, fd, hlt, hfp, hopen, by rw [heq], rfl, rfl, rfl, rfl, rfl, rfl,
        by rw [heq]⟩
    · intro hok; rw [heq] at hok; cases hok

theorem openJoystickDevice_connect_spec_witness :
    (∃ jid fd, jid < emptyTable.length
      ∧ (emptyTable.getD jid emptyJoystick).present = false
      ∧ okEnv.openResult = some fd
      ∧ (openJoystickDevice okEnv "/dev/input/js0" emptyTable).table =
          emptyTable.set jid (newSlot okEnv "/dev/input/js0" fd)
      ∧ (newSlot okEnv "/dev/input/js0" fd).present = true
      ∧ (newSlot okEnv "/dev/input/js0" fd).name = okEnv.nameResult.getD "Unknown"
      ∧ (newSlot okEnv "/dev/input/js0" fd).path = "/dev/input/js0"
      ∧ (newSlot okEnv "/dev/input/js0" fd).fd = fd
      ∧ (newSlot okEnv "/dev/input/js0" fd).axes = List.replicate okEnv.axisCount 0
      ∧ (newSlot okEnv "/dev/input/js0" fd).buttons = List.replicate okEnv.buttonCount 0
      ∧ (openJoystickDevice okEnv "/dev/input/js0" emptyTable).notifs =
          [(jid, ConnChange.connected)])
  ∧ ((openJoystickDevice failEnv "/dev/input/js0" emptyTable).notifs = []
      ∧ (openJoystickDevice failEnv "/dev/input/js0" emptyTable).table = emptyTable) :=
  ⟨(openJoystickDevice_connect_spec okEnv "/dev/input/js0" emptyTable).1 (by decide),
   (openJoystickDevice_connect_spec failEnv "/dev/input/js0" emptyTable).2 (by decide)⟩

/-- C3: the device table is a fixed-size slot table: `openJoystickDevice`
never overwrites a present slot, populates the lowest-indexed free slot,
returns false without opening anything when every slot is present, leaves
the table length unchanged, and the number of present slots never exceeds
the table size. -/
theorem openJoystickDevice_slot_table_spec (env : OpenEnv) (path : String)
    (tbl : List Joystick) :
    ((∀ j ∈ tbl, j.present = true) →
      (openJoystickDevice env path tbl).ok = false
      ∧ (openJoystickDevice env path tbl).table = tbl
      ∧ (openJoystickDevice env path tbl).openedFd = none
      ∧ (openJoystickDevice env path tbl).notifs = [])
  ∧ ((openJoystickDevice env path tbl).ok = true →
      ∃ jid fd, firstFreeSlot tbl = some jid
        ∧ (tbl.getD jid emptyJoystick).present = false
        ∧ (∀ k, k < jid → (tbl.getD k emptyJoystick).present = true)
        ∧ (openJoystickDevice env path tbl).table = tbl.set jid (newSlot env path fd))
  ∧ (openJoystickDevice env path tbl).table.length = tbl.length
  ∧ presentCount (openJoystickDevice env path tbl).table ≤ tbl.length := by
  rcases openJoystickDevice_shape env path tbl with heq | ⟨jid, fd, hfree, _, _, _, heq⟩ |
      ⟨jid, fd, hfree, _, _, _, heq⟩
  · refine ⟨fun _ => by rw [heq]; exact ⟨rfl, rfl, rfl, rfl⟩, ?_, ?_, ?_⟩
    · intro hok; rw [heq] at hok; cases hok
    · rw [heq]
    · rw [heq]; exact presentCount_le tbl
  · refine ⟨?_, ?_, ?_, ?_⟩
    · intro hall
      have hnone := (firstFreeSlot_eq_none_iff tbl).mpr hall
      rw [hnone] at hfree; cases hfree
    · intro hok; rw [heq] at hok; cases hok
    · rw [heq]
    · rw [heq]; exact presentCount_le tbl
  · refine ⟨?_, ?_, ?_, ?_⟩
    · intro hall
      have hnone := (firstFreeSlot_eq_none_iff tbl).mpr hall
      rw [hnone] at hfree; cases hfree
    · intro _
      obtain ⟨_, hfp, hlow⟩ := firstFreeSlot_spec tbl jid hfree
      exact ⟨jid, fd, hfree, hfp, hlow, by rw [heq]⟩
    · rw [heq]; simp
    · rw [heq]
      calc presentCount (tbl.set jid (newSlot env path fd)) ≤
          (tbl.set jid (newSlot env path fd)).length := presentCount_le _
        _ = tbl.length := by simp

theorem openJoystickDevice_slot_table_spec_witness :
    (openJoystickDevice okEnv "/dev/input/js2" fullTable).ok = false
    ∧ (openJoystickDevice okEnv "/dev/input/js2" fullTable).table = fullTable
    ∧ (openJoystickDevice okEnv "/dev/input/js2" fullTable).openedFd = none
    ∧ (openJoystickDevice okEnv "/dev/input/js2" fullTable).notifs = [] :=
  (openJoystickDevice_slot_table_spec okEnv "/dev/input/js2" fullTable).1 (by decide)

/-- C4: for a driver version below 0x010000 `openJoystickDevice` returns
false, leaves the table unchanged, fires no notification, and closes
exactly the descriptor it opened. -/
theorem openJoystickDevice_version_check_spec (env : OpenEnv) (path : String)
    (tbl : List Joystick) (hv : env.version < 65536) :
    (openJoystickDevice env path tbl).ok = false
  ∧ (openJoystickDevice env path tbl).table = tbl
  ∧ (openJoystickDevice env path tbl).notifs = []
  ∧ (openJoystickDevice env path tbl).closedFd = (openJoystickDevice env path tbl).openedFd
  ∧ (∀ jid fd, firstFreeSlot tbl = some jid →
      tbl.any (fun j => j.present && strcmp j.path.data path.data == 0) = false →
      env.openResult = some fd →
      (openJoystickDevice env path tbl).openedFd = some fd
      ∧ (openJoystickDevice env path tbl).closedFd = some fd) := by
  have hmain : (openJoystickDevice env path tbl).ok = false
      ∧ (openJoystickDevice env path tbl).table = tbl
      ∧ (openJoystickDevice env path tbl).notifs = []
      ∧ (openJoystickDevice env path tbl).closedFd =
          (openJoystickDevice env path tbl).openedFd := by
    rcases openJoystickDevice_shape env path tbl with heq | ⟨jid, fd, _, _, _, _, heq⟩ |
        ⟨jid, fd, _, _, _, hver, heq⟩
    · rw [heq]; exact ⟨rfl, rfl, rfl, rfl⟩
    · rw [heq]; exact ⟨rfl, rfl, rfl, rfl⟩
    · exact absurd hv hver
  refine ⟨hmain.1, hmain.2.1, hmain.2.2.1, hmain.2.2.2, ?_⟩
  intro jid fd hfree hdup hopen
  have heq : openJoystickDevice env path tbl =
      { ok := false, table := tbl, notifs := [], openedFd := some fd,
        closedFd := some fd } := by
    simp only [openJoystickDevice, hdup, Bool.false_eq_true, if_false, hfree, hopen,
      if_pos hv]
  rw [heq]
  exact ⟨rfl, rfl⟩

theorem openJoystickDevice_version_check_spec_witness :
    ((openJoystickDevice oldEnv "/dev/input/js0" emptyTable).ok = false
    ∧ (openJoystickDevice oldEnv "/dev/input/js0" emptyTable).table = emptyTable
    ∧ (openJoystickDevice oldEnv "/dev/input/js0" emptyTable).notifs = []
    ∧ (openJoystickDevice oldEnv "/dev/input/js0" emptyTable).closedFd =
        (openJoystickDevice oldEnv "/dev/input/js0" emptyTable).openedFd)
  ∧ ((openJoystickDevice oldEnv "/dev/input/js0" emptyTable).openedFd = some 7
    ∧ (openJoystickDevice oldEnv "/dev/input/js0" emptyTable).closedFd = some 7) := by
  have h := openJoystickDevice_version_check_spec oldEnv "/dev/input/js0" emptyTable
    (by decide)
  exact ⟨⟨h.1, h.2.1, h.2.2.1, h.2.2.2.1⟩,
    h.2.2.2.2 0 7 (by decide) (by decide) (by decide)⟩

/-- C9: no two present slots hold the same device path: a path already
present makes `openJoystickDevice` fail before opening, touching nothing,
and the pairwise-distinct-path invariant is preserved both by
`openJoystickDevice` and by `pollJoystickEvents`. -/
theorem distinct_paths_spec (env : OpenEnv) (path : String) (tbl : List Joystick) :
    ((∃ x ∈ tbl, x.present = true ∧ x.path = path) →
      openJoystickDevice env path tbl =
        { ok := false, table := tbl, notifs := [], openedFd := none, closedFd := none })
  ∧ (distinctPaths tbl → distinctPaths (openJoystickDevice env path tbl).table)
  ∧ (∀ penv jid events failErrno, distinctPaths tbl →
      distinctPaths (pollJoystickEvents penv jid tbl events failErrno).table) := by
  refine ⟨?_, distinctPaths_open env path tbl,
    fun penv jid events failErrno h => distinctPaths_poll penv jid tbl events failErrno h⟩
  intro ⟨x, hx, hpres, hpath⟩
  have hany : tbl.any (fun j => j.present && strcmp j.path.data path.data == 0) = true := by
    rw [List.any_eq_true]
    refine ⟨x, hx, ?_⟩
    have hzero : strcmp x.path.data path.data = 0 :=
      (strcmp_eq_zero_iff x.path.data path.data).mpr (by rw [hpath])
    simp [hpres, hzero]
  simp only [openJoystickDevice, hany, if_true]

theorem distinct_paths_spec_witness :
    openJoystickDevice okEnv "/dev/input/js0" [slotA] =
      { ok := false, table := [slotA], notifs := [], openedFd := none,
        closedFd := none } :=
  (distinct_paths_spec okEnv "/dev/input/js0" [slotA]).1
    ⟨slotA, by decide, by decide, by decide⟩

/-- C7: button states are boolean: the button array of a freshly opened
slot is zero-initialised to GLFW_RELEASE, and every table operation keeps
every entry of every button array equal to GLFW_RELEASE or GLFW_PRESS. -/
theorem button_states_boolean_spec :
    (∀ (env : OpenEnv) (path : String) (fd : Int),
      (newSlot env path fd).buttons = List.replicate env.buttonCount GLFW_RELEASE
      ∧ buttonsOK (newSlot env path fd))
  ∧ (∀ (env : OpenEnv) (path : String) (tbl : List Joystick), tableButtonsOK tbl →
      tableButtonsOK (openJoystickDevice env path tbl).table)
  ∧ (∀ (penv : PollEnv) (jid : Nat) (tbl : List Joystick) (events : List JsEvent)
      (failErrno : Nat), tableButtonsOK tbl →
      tableButtonsOK (pollJoystickEvents penv jid tbl events failErrno).table) := by
  refine ⟨?_, ?_, ?_⟩
  · intro env path fd
    exact ⟨rfl, buttonsOK_newSlot env path fd⟩
  · intro env path tbl h
    exact tableButtonsOK_open env path tbl h
  · intro penv jid tbl events failErrno h
    exact tableButtonsOK_poll penv jid tbl events failErrno h

theorem button_states_boolean_spec_witness :
    tableButtonsOK (openJoystickDevice okEnv "/dev/input/js0" emptyTable).table
  ∧ tableButtonsOK (pollJoystickEvents quietPoll 0 [slotA] [] ENODEV).table :=
  ⟨button_states_boolean_spec.2.1 okEnv "/dev/input/js0" emptyTable (by decide),
   button_states_boolean_spec.2.2 quietPoll 0 [slotA] [] ENODEV (by decide)⟩

/-- C8: only device names matching the js-digits pattern are attempted:
the directory scan of the initialiser and the hot-plug handler invoke
`openJoystickDevice` exactly on the pattern-matching names. -/
theorem pattern_filter_spec :
    (∀ (devices : String → OpenEnv) (entries : List String) (tbl : List Joystick),
      (scanJoysticks devices entries tbl).2.2.2 =
        (entries.filter matchesJoystickPattern).map devPath)
  ∧ (∀ (devices : String → OpenEnv) (names : List String) (tbl : List Joystick),
      (glfwPollJoystickEvents devices names tbl).attempted =
        (names.filter matchesJoystickPattern).map devPath)
  ∧ (∀ (env : InitEnv) (tbl : List Joystick) (entries : List String) (k : Int),
      env.inotifyFd = some k → env.regcompOk = true → env.dirEntries = some entries →
      (glfwInitJoysticksLinux env tbl).attempted =
        (entries.filter matchesJoystickPattern).map devPath) := by
  refine ⟨fun devices entries tbl => scanJoysticks_attempted devices entries tbl,
    fun devices names tbl => glfwPollJoystickEvents_attempted devices names tbl, ?_⟩
  intro env tbl entries k h1 h2 h3
  rw [glfwInitJoysticksLinux_eq_scan env tbl k entries h1 h2 h3]
  exact scanJoysticks_attempted env.devices entries tbl

theorem pattern_filter_spec_witness :
    (glfwInitJoysticksLinux envNames emptyTable).attempted =
      ((["js0", "js1"].filter matchesJoystickPattern).map devPath) :=
  pattern_filter_spec.2.2 envNames emptyTable ["js0", "js1"] 3 rfl rfl rfl

/-- C10: `_glfwInitJoysticksLinux` returns false exactly when inotify
creation fails or the regex compilation fails; a failed directory watch or
a failed directory open is reported as an error while the function still
returns true, in the latter case with the table left as it was and no
notifications. -/
theorem init_return_value_spec (env : InitEnv) (tbl : List Joystick) :
    ((glfwInitJoysticksLinux env tbl).ok = false ↔
      (env.inotifyFd = none ∨ env.regcompOk = false))
  ∧ (∀ k, env.inotifyFd = some k → env.regcompOk = true → env.watchFd = none →
      InitError.watchFailed ∈ (glfwInitJoysticksLinux env tbl).errors
      ∧ (glfwInitJoysticksLinux env tbl).ok = true)
  ∧ (∀ k, env.inotifyFd = some k → env.regcompOk = true → env.dirEntries = none →
      InitError.dirFailed ∈ (glfwInitJoysticksLinux env tbl).errors
      ∧ (glfwInitJoysticksLinux env tbl).ok = true
      ∧ (glfwInitJoysticksLinux env tbl).table = tbl
      ∧ (glfwInitJoysticksLinux env tbl).notifs = []) := by
  refine ⟨?_, ?_, ?_⟩
  · cases hin : env.inotifyFd with
    | none => rw [glfwInitJoysticksLinux_eq_noInotify env tbl hin]; simp
    | some k =>
      cases hreg : env.regcompOk with
      | false => rw [glfwInitJoysticksLinux_eq_noRegex env tbl k hin hreg]; simp
      | true =>
        cases hdir : env.dirEntries with
        | none => rw [glfwInitJoysticksLinux_eq_noDir env tbl k hin hreg hdir]; simp
        | some entries =>
          rw [glfwInitJoysticksLinux_eq_scan env tbl k entries hin hreg hdir]; simp
  · intro k hin hreg hwatch
    cases hdir : env.dirEntries with
    | none =>
      rw [glfwInitJoysticksLinux_eq_noDir env tbl k hin hreg hdir]
      simp [hwatch]
    | some entries =>
      rw [glfwInitJoysticksLinux_eq_scan env tbl k entries hin hreg hdir]
      simp [hwatch]
  · intro k hin hreg hdir
    rw [glfwInitJoysticksLinux_eq_noDir env tbl k hin hreg hdir]
    refine ⟨by simp, rfl, sortFirstN_zero tbl, rfl⟩

theorem init_return_value_spec_witness :
    (InitError.watchFailed ∈ (glfwInitJoysticksLinux envNoDir emptyTable).errors
      ∧ (glfwInitJoysticksLinux envNoDir emptyTable).ok = true)
  ∧ (InitError.dirFailed ∈ (glfwInitJoysticksLinux envNoDir emptyTable).errors
      ∧ (glfwInitJoysticksLinux envNoDir emptyTable).ok = true
      ∧ (glfwInitJoysticksLinux envNoDir emptyTable).table = emptyTable
      ∧ (glfwInitJoysticksLinux envNoDir emptyTable).notifs = []) :=
  ⟨(init_return_value_spec envNoDir emptyTable).2.1 3 rfl rfl rfl,
   (init_return_value_spec envNoDir emptyTable).2.2 3 rfl rfl rfl⟩

/-- C1: with no pending hot-plug events, polling a present slot drains the
queued driver events up to the failing read; if that read fails with
ENODEV the slot is zeroed and exactly one GLFW_DISCONNECTED fires, on any
other errno the slot keeps its present flag, counts and path and nothing
fires; the return value is the present flag of the slot after polling. -/
theorem pollJoystickEvents_disconnect_spec (penv : PollEnv) (jid : Nat)
    (tbl : List Joystick) (events : List JsEvent) (failErrno : Nat)
    (hquiet : penv.inotifyNames = [])
    (hp : (tbl.getD jid emptyJoystick).present = true) :
    (failErrno = ENODEV →
      pollJoystickEvents penv jid tbl events failErrno =
        { ret := false, table := tbl.set jid emptyJoystick,
          notifs := [(jid, ConnChange.disconnected)] })
  ∧ (failErrno ≠ ENODEV →
      pollJoystickEvents penv jid tbl events failErrno =
        { ret := true,
          table := tbl.set jid (events.foldl processEvent (tbl.getD jid emptyJoystick)),
          notifs := [] }
      ∧ ((pollJoystickEvents penv jid tbl events failErrno).table.getD jid
          emptyJoystick).present = (tbl.getD jid emptyJoystick).present
      ∧ ((pollJoystickEvents penv jid tbl events failErrno).table.getD jid
          emptyJoystick).axisCount = (tbl.getD jid emptyJoystick).axisCount
      ∧ ((pollJoystickEvents penv jid tbl events failErrno).table.getD jid
          emptyJoystick).buttonCount = (tbl.getD jid emptyJoystick).buttonCount
      ∧ ((pollJoystickEvents penv jid tbl events failErrno).table.getD jid
          emptyJoystick).path = (tbl.getD jid emptyJoystick).path)
  ∧ (pollJoystickEvents penv jid tbl events failErrno).ret =
      ((pollJoystickEvents penv jid tbl events failErrno).table.getD jid
        emptyJoystick).present := by
  have h0 : glfwPollJoystickEvents penv.devices penv.inotifyNames tbl =
      { table := tbl, notifs := [], attempted := [] } := by
    rw [hquiet]
    rfl
  have hp' : ((glfwPollJoystickEvents penv.devices penv.inotifyNames
      tbl).table.getD jid emptyJoystick).present = true := by rw [h0]; exact hp
  have hlt : jid < tbl.length := by
    by_contra hge
    rw [List.getD_eq_default _ _ (by omega)] at hp
    simp [emptyJoystick] at hp
  obtain ⟨f1, f2, _, _, f5, f6⟩ := foldl_processEvent_fields events
    (tbl.getD jid emptyJoystick)
  refine ⟨?_, ?_, ?_⟩
  · intro he
    rw [pollJoystickEvents_eq_enodev penv jid tbl events failErrno hp' he, h0]
    simp
  · intro he
    constructor
    · have hret : (events.foldl processEvent (tbl.getD jid emptyJoystick)).present =
          true := f1.trans hp
      rw [pollJoystickEvents_eq_events penv jid tbl events failErrno hp' he, h0]
      show PollResult.mk
          ((events.foldl processEvent (tbl.getD jid emptyJoystick)).present)
          (tbl.set jid (events.foldl processEvent (tbl.getD jid emptyJoystick)))
          [] = _
      rw [hret]
    · rw [pollJoystickEvents_eq_events penv jid tbl events failErrno hp' he, h0]
      show ((tbl.set jid (events.foldl processEvent (tbl.getD jid
        emptyJoystick))).getD jid emptyJoystick).present = _ ∧ _
      rw [getD_set_self hlt]
      exact ⟨f1, f5, f6, f2⟩
  · by_cases he : failErrno = ENODEV
    · rw [pollJoystickEvents_eq_enodev penv jid tbl events failErrno hp' he, h0]
      show false = ((tbl.set jid emptyJoystick).getD jid emptyJoystick).present
      rw [getD_set_self hlt]
      rfl
    · rw [pollJoystickEvents_eq_events penv jid tbl events failErrno hp' he, h0]
      show _ = ((tbl.set jid (events.foldl processEvent (tbl.getD jid
        emptyJoystick))).getD jid emptyJoystick).present
      rw [getD_set_self hlt]

theorem pollJoystickEvents_disconnect_spec_witness :
    (pollJoystickEvents quietPoll 0 [slotA] [] ENODEV =
      { ret := false, table := [slotA].set 0 emptyJoystick,
        notifs := [(0, ConnChange.disconnected)] })
  ∧ (pollJoystickEvents quietPoll 0 [slotA] [] 11 =
      { ret := true, table := [slotA].set 0 ([].foldl processEvent
          ([slotA].getD 0 emptyJoystick)), notifs := [] }) := by
  have h1 := pollJoystickEvents_disconnect_spec quietPoll 0 [slotA] [] ENODEV rfl
    (by decide)
  have h2 := pollJoystickEvents_disconnect_spec quietPoll 0 [slotA] [] 11 rfl
    (by decide)
  exact ⟨h1.1 rfl, (h2.2.1 (by decide)).1⟩

/-- C6 counterexample: the axis event carrying the minimum s16 value -32768
is stored as -32768/32767, which is strictly below -1, so the stored axis
value does not lie in the interval [-1, 1]. -/
theorem axis_unit_interval_counterexample :
    (processEvent axisSlot minAxisEvent).axes.getD 0 0 = -32768 / 32767
  ∧ (processEvent axisSlot minAxisEvent).axes.getD 0 0 < -1 := by
  have h : (processEvent axisSlot minAxisEvent).axes.getD 0 0 =
      (minAxisEvent.value : Rat) / 32767 := by
    rw [processEvent_eq_axis axisSlot minAxisEvent (by decide)]
    exact getD_set_self (by decide)
  have hv : (minAxisEvent.value : Rat) = -32768 := by norm_num [minAxisEvent]
  rw [h, hv]
  norm_num

/-- C6 amended: every axis driver event stores the event value divided by
32767, and for s16 event values the stored value lies in the interval
[-32768/32767, 1] (which exceeds -1 slightly at the minimum driver value);
every axis entry of a slot whose entries start in that interval stays in
it through the whole read loop. -/
theorem axis_normalisation_spec :
    (∀ (js : Joystick) (e : JsEvent), -32768 ≤ e.value → e.value ≤ 32767 →
      e.type &&& 127 = JS_EVENT_AXIS → e.number < js.axes.length →
      ((processEvent js e).axes.getD e.number 0 = (e.value : Rat) / 32767
        ∧ -(32768 / 32767 : Rat) ≤ (processEvent js e).axes.getD e.number 0
        ∧ (processEvent js e).axes.getD e.number 0 ≤ 1))
  ∧ (∀ (events : List JsEvent) (js : Joystick),
      (∀ x ∈ js.axes, -(32768 / 32767 : Rat) ≤ x ∧ x ≤ 1) →
      (∀ ev ∈ events, -32768 ≤ ev.value ∧ ev.value ≤ 32767) →
      ∀ x ∈ (events.foldl processEvent js).axes,
        -(32768 / 32767 : Rat) ≤ x ∧ x ≤ 1) := by
  constructor
  · intro js e hlo hhi ht hnum
    have heq : (processEvent js e).axes.getD e.number 0 = (e.value : Rat) / 32767 := by
      rw [processEvent_eq_axis js e ht]
      exact getD_set_self hnum
    obtain ⟨hl, hr⟩ := axisValue_bounds e.value hlo hhi
    exact ⟨heq, by rw [heq]; exact hl, by rw [heq]; exact hr⟩
  · intro events js hax hev
    exact axes_bounds_foldl events js hax hev

theorem axis_normalisation_spec_witness :
    (processEvent axisSlot maxAxisEvent).axes.getD 0 0 = (maxAxisEvent.value : Rat) / 32767
  ∧ -(32768 / 32767 : Rat) ≤ (processEvent axisSlot maxAxisEvent).axes.getD 0 0
  ∧ (processEvent axisSlot maxAxisEvent).axes.getD 0 0 ≤ 1 :=
  axis_normalisation_spec.1 axisSlot maxAxisEvent (by decide) (by decide) (by decide)
    (by decide)

/-- C5 counterexample: after initialisation with two devices whose display
names are in the opposite lexical order of their paths, slots 0 and 1 are
both present but slot 0 has the lexically larger name, so the populated
slots are not in non-decreasing order of device name. -/
theorem init_name_order_counterexample :
    ((glfwInitJoysticksLinux envNames emptyTable).table.getD 0 emptyJoystick).present = true
  ∧ ((glfwInitJoysticksLinux envNames emptyTable).table.getD 1 emptyJoystick).present = true
  ∧ (0 : Nat) < 1
  ∧ 1 < (glfwInitJoysticksLinux envNames emptyTable).table.length
  ∧ ¬ strcmp
      ((glfwInitJoysticksLinux envNames emptyTable).table.getD 0 emptyJoystick).name.data
      ((glfwInitJoysticksLinux envNames emptyTable).table.getD 1 emptyJoystick).name.data
      ≤ 0 := by
  decide

/-- False exactly where `emptyTable` has no present slot. -/
theorem emptyTable_not_present (i : Nat) :
    (emptyTable.getD i emptyJoystick).present = true → False := by
  rw [emptyTable, getD_replicate_empty]
  decide

/-- C5 amended: after `_glfwInitJoysticksLinux` runs on the zeroed table,
the populated slots are arranged in lexically non-decreasing order of
device PATH (the qsort comparator compares the path fields), giving a
deterministic ordering of the enumerated devices. -/
theorem init_sorted_by_path_spec (env : InitEnv) (i j : Nat)
    (hij : i < j)
    (hj : j < (glfwInitJoysticksLinux env emptyTable).table.length)
    (hpi : ((glfwInitJoysticksLinux env emptyTable).table.getD i
      emptyJoystick).present = true)
    (hpj : ((glfwInitJoysticksLinux env emptyTable).table.getD j
      emptyJoystick).present = true) :
    strcmp ((glfwInitJoysticksLinux env emptyTable).table.getD i
        emptyJoystick).path.data
      ((glfwInitJoysticksLinux env emptyTable).table.getD j
        emptyJoystick).path.data ≤ 0 := by
  cases hin : env.inotifyFd with
  | none =>
    refine absurd hpi ?_
    rw [glfwInitJoysticksLinux_eq_noInotify env emptyTable hin]
    exact emptyTable_not_present i
  | some k =>
    cases hreg : env.regcompOk with
    | false =>
      refine absurd hpi ?_
      rw [glfwInitJoysticksLinux_eq_noRegex env emptyTable k hin hreg]
      exact emptyTable_not_present i
    | true =>
      cases hdir : env.dirEntries with
      | none =>
        refine absurd hpi ?_
        rw [glfwInitJoysticksLinux_eq_noDir env emptyTable k hin hreg hdir]
        exact emptyTable_not_present i
      | some entries =>
        rw [glfwInitJoysticksLinux_eq_scan env emptyTable k entries hin hreg hdir]
          at hpi hpj hj ⊢
        obtain ⟨hup, hle, _⟩ := scanJoysticks_presentUpTo env.devices entries
          emptyTable 0 presentUpTo_zero_emptyTable (Nat.zero_le _)
        simp only [Nat.zero_add] at hup hle
        exact sortFirstN_sorted_present (scanJoysticks env.devices entries emptyTable).1
          (scanJoysticks env.devices entries emptyTable).2.1 hup hle i j hij hj hpi hpj

theorem init_sorted_by_path_spec_witness :
    strcmp ((glfwInitJoysticksLinux envNames emptyTable).table.getD 0
        emptyJoystick).path.data
      ((glfwInitJoysticksLinux envNames emptyTable).table.getD 1
        emptyJoystick).path.data ≤ 0 :=
  init_sorted_by_path_spec envNames 0 1 (by decide) (by decide) (by decide) (by decide)
